import Mathlib

/-!
Verification of the json-express-api request-processing core.

The definitions below are a shallow embedding of the JavaScript source:
JS strings that may be absent are modelled as Option String, where
none stands for undefined, and JS truthiness of such a value holds
exactly when the value is present and non-empty.  Middleware is
modelled as a function from its request inputs to an explicit result
(either pass-through to the next handler, or a short-circuit response).
-/

namespace JsonExpressApi

/-- Truthiness of a possibly-absent JS string: undefined and the empty
string are falsy, every other string is truthy. -/
def strTruthy : Option String → Bool
  | none => false
  | some s => s ≠ ""

/-- The safe HTTP methods skipped by the CSRF guard
(src/middleware/csrf.js line 15). -/
def safeMethods : List String := ["GET", "HEAD", "OPTIONS"]

/-- Whether a method is in the safe list. -/
def isSafeMethod (m : String) : Bool := safeMethods.contains m

/-- Result of running one middleware: either fall through to the next
handler, or short-circuit with a response status and an optional
machine-readable error code. -/
inductive MiddlewareResult where
  | next : MiddlewareResult
  | respond (status : Nat) (code : Option String) : MiddlewareResult
deriving DecidableEq, Repr

/-- Embedding of validateCSRF (src/middleware/csrf.js lines 13-35):
safe methods bypass; otherwise the XSRF-TOKEN cookie and the
x-csrf-token header must be truthy and equal, else 403 with code
CSRF_VALIDATION_FAILED. -/
def validateCSRF (method : String) (cookieToken headerToken : Option String) :
    MiddlewareResult :=
  if isSafeMethod method then
    .next
  else if !strTruthy cookieToken || !strTruthy headerToken
          || cookieToken != headerToken then
    .respond 403 (some "CSRF_VALIDATION_FAILED")
  else
    .next

/-- One hexadecimal digit, lower case, as produced by the node Buffer
hex encoding. -/
def hexDigit (n : Nat) : Char :=
  if n < 10 then Char.ofNat (48 + n) else Char.ofNat (87 + n)

/-- Hex encoding of one byte (two hex digits). -/
def hexByte (b : Nat) : List Char := [hexDigit (b / 16 % 16), hexDigit (b % 16)]

/-- Embedding of crypto.randomBytes(n).toString(hex): the entropy bytes
are an explicit input, the encoding is two lower-case hex digits per
byte. -/
def hexEncode (bytes : List Nat) : String := ⟨(bytes.map hexByte).flatten⟩

/-- Attributes of one Set-Cookie action produced by the server. -/
structure SetCookie where
  name : String
  value : String
  httpOnly : Bool
  secure : Bool
  sameSite : String
  maxAge : Nat
  path : String
deriving DecidableEq, Repr

/-- Cookie set by generateCSRFToken (src/middleware/csrf.js lines 44-58):
script-readable XSRF-TOKEN cookie, SameSite=Lax, 24h max-age, path /. -/
def mkCsrfCookie (token : String) (isProduction : Bool) : SetCookie :=
  { name := "XSRF-TOKEN"
    value := token
    httpOnly := false
    secure := isProduction
    sameSite := "lax"
    maxAge := 24 * 60 * 60 * 1000
    path := "/" }

/-- Embedding of generateCSRFToken: mint a 32-byte hex token from the
given entropy and produce the XSRF-TOKEN Set-Cookie action. -/
def generateCSRFToken (entropy : List Nat) (isProduction : Bool) :
    String × SetCookie :=
  let token := hexEncode entropy
  (token, mkCsrfCookie token isProduction)

/-- Embedding of autoGenerateCSRF (src/middleware/csrf.js lines 85-91):
only for GET requests whose XSRF-TOKEN cookie is falsy, mint a token and
set the cookie; otherwise set nothing.  The returned value is the
Set-Cookie action, if any. -/
def autoGenerateCSRF (method : String) (cookieXsrf : Option String)
    (entropy : List Nat) (isProduction : Bool) : Option SetCookie :=
  if method == "GET" && !strTruthy cookieXsrf then
    some (generateCSRFToken entropy isProduction).2
  else
    none

/-- The XSRF-TOKEN cookie value the client ends up with after the
response: the newly set value if the middleware set one, else the value
it already carried. -/
def effectiveCsrfCookie (before : Option String) (action : Option SetCookie) :
    Option String :=
  match action with
  | some c => some c.value
  | none => before

/-- Decoded JWT claim set (src/middleware/auth.js demoLogin payload). -/
structure Claims where
  userId : String
  email : String
  name : String
  role : String
  iat : Nat
deriving DecidableEq, Repr

/-- Outcome of jwt.verify on a token string, as discriminated by the
error name checked in authenticateToken: success, JsonWebTokenError
(invalid signature or malformed token), or TokenExpiredError. -/
inductive VerifyOutcome where
  | ok (claims : Claims) : VerifyOutcome
  | jsonWebTokenError : VerifyOutcome
  | tokenExpiredError : VerifyOutcome
deriving DecidableEq, Repr

/-- Observable outcome of running authenticateToken on one request:
the short-circuit status if any (none means next was called and the
handler runs), whether the response cleared the authToken cookie, the
error string and action field of the JSON body, and the decoded user
attached to the request. -/
structure AuthResult where
  status : Option Nat
  clearedAuthCookie : Bool
  error : Option String
  action : Option String
  user : Option Claims
deriving DecidableEq, Repr

/-- Embedding of authenticateToken (src/middleware/auth.js lines
70-116): a falsy cookie raises a 401 ApiError handled by the generic
branch; JsonWebTokenError yields 401 without clearing the cookie;
TokenExpiredError clears the authToken cookie and yields 401 with
action login_required; otherwise the decoded claims are attached and
next is called. -/
def authenticateToken (cookie : Option String)
    (verify : String → VerifyOutcome) : AuthResult :=
  if !strTruthy cookie then
    { status := some 401, clearedAuthCookie := false
      error := some "Authentication required - No token provided"
      action := none, user := none }
  else
    match verify (cookie.getD "") with
    | .ok decoded =>
        { status := none, clearedAuthCookie := false
          error := none, action := none, user := some decoded }
    | .jsonWebTokenError =>
        { status := some 401, clearedAuthCookie := false
          error := some "Invalid authentication token"
          action := none, user := none }
    | .tokenExpiredError =>
        { status := some 401, clearedAuthCookie := true
          error := some "Authentication token expired"
          action := some "login_required", user := none }

/-- Embedding of optionalAuth (src/middleware/auth.js lines 124-139):
decode the cookie if truthy, swallow every failure, never block. -/
def optionalAuth (cookie : Option String)
    (verify : String → VerifyOutcome) : Option Claims :=
  if strTruthy cookie then
    match verify (cookie.getD "") with
    | .ok decoded => some decoded
    | _ => none
  else
    none

/-- The demo-user claim set from demoLogin (src/middleware/auth.js
lines 148-187), used as a concrete claim value in witnesses. -/
def demoClaims : Claims :=
  { userId := "demo-user-123"
    email := "demo@example.com"
    name := "Demo User"
    role := "user"
    iat := 0 }

/-- A concrete verifier used only to instantiate witnesses: one valid
token, one expired token, everything else malformed. -/
def demoVerify : String → VerifyOutcome := fun t =>
  if t = "good" then .ok demoClaims
  else if t = "expired" then .tokenExpiredError
  else .jsonWebTokenError

/-- Outcome of the POST /api/auth/logout pipeline segment consisting of
the mounted CSRF guard followed by the logout route (optionalAuth, then
clear the authToken cookie and answer 200). -/
structure LogoutOutcome where
  status : Nat
  clearedAuthCookie : Bool
deriving DecidableEq, Repr

/-- Embedding of the POST /api/auth/logout path through the app
pipeline: app.use on /api mounts validateCSRF before the auth router
(src/unnamed/part_006 lines 105-106), and the logout route
(router.post logout, optionalAuth then clearAuthCookie and a 200 JSON
body) never fails on its own. -/
def logoutPipeline (csrfCookie csrfHeader authCookie : Option String)
    (verify : String → VerifyOutcome) : LogoutOutcome :=
  match validateCSRF "POST" csrfCookie csrfHeader with
  | .respond s _ => { status := s, clearedAuthCookie := false }
  | .next =>
      let _user := optionalAuth authCookie verify
      { status := 200, clearedAuthCookie := true }

/-- Window length of the strict rate limiter in milliseconds
(src/unnamed/part_004: windowMs 15 * 60 * 1000). -/
def strictWindowMs : Nat := 15 * 60 * 1000

/-- Ceiling of the strict rate limiter (src/unnamed/part_004: max 20
write requests per window). -/
def strictMax : Nat := 20

/-- Methods counted by the strict limiter; every other method is
skipped (src/unnamed/part_004 skip option). -/
def mutatingMethods : List String := ["POST", "PUT", "DELETE", "PATCH"]

/-- Fixed-window counter state kept per client address by the rate
limiter store. -/
structure LimiterState where
  windowStart : Nat
  count : Nat
deriving DecidableEq, Repr

/-- Rejection response of the strict limiter: 429 with a retry-after
hint (src/unnamed/part_004 handler). -/
structure LimiterReject where
  status : Nat
  error : String
  retryAfter : String
deriving DecidableEq, Repr

/-- Embedding of one strictLimiter step for one client key: a
non-mutating method is skipped and leaves the counter untouched; a
mutating request first resets an elapsed window, then increments the
counter, and is rejected with 429 exactly when the incremented count
exceeds the ceiling. -/
def strictLimiter (now : Nat) (method : String) (s : LimiterState) :
    Option LimiterReject × LimiterState :=
  if !mutatingMethods.contains method then
    (none, s)
  else
    let s1 := if s.windowStart + strictWindowMs ≤ now then
        { windowStart := now, count := 0 }
      else s
    let s2 : LimiterState := { s1 with count := s1.count + 1 }
    if s2.count > strictMax then
      (some { status := 429
              error := "Write operation rate limit exceeded"
              retryAfter := "15 minutes" }, s2)
    else
      (none, s2)

/-- Run the strict limiter over a list of timestamped requests,
returning for each request whether it passed to its handler, together
with the final counter state. -/
def runStrict (s : LimiterState) : List (Nat × String) → List Bool × LimiterState
  | [] => ([], s)
  | (t, m) :: rest =>
      let step := strictLimiter t m s
      let tail := runStrict step.2 rest
      (step.1.isNone :: tail.1, tail.2)

/-- Nested Plotly title object (the layout.title value). -/
structure TitleObj where
  text : Option String
deriving DecidableEq, Repr

/-- Plotly layout object; only the title is ever interpreted by the
server. -/
structure Layout where
  title : Option TitleObj
deriving DecidableEq, Repr

/-- Plotly figure payload: an opaque list of traces plus an optional
layout.  The server stores the traces without interpreting them. -/
structure PlotlyData where
  data : Option (List String)
  layout : Option Layout
deriving DecidableEq, Repr

/-- Stored chart document per the schema in chartModel.js: payload,
title, description, tags and the two timestamps. -/
structure Chart where
  plotlyData : Option PlotlyData
  chartTitle : String
  description : String
  tags : List String
  createdAt : Nat
  updatedAt : Nat
deriving DecidableEq, Repr

/-- The JS optional chain plotlyData?.layout?.title?.text. -/
def payloadTitleText (pd : Option PlotlyData) : Option String :=
  ((pd.bind PlotlyData.layout).bind Layout.title).bind TitleObj.text

/-- Title derivation of the POST /api/charts handler (chartModel.js
lines 399-402): req.body.chartTitle, else the nested payload title,
else Untitled Chart, where the JS or-chain skips falsy (absent or
empty) values. -/
def deriveChartTitle (bodyTitle : Option String) (pd : Option PlotlyData) :
    String :=
  if strTruthy bodyTitle then bodyTitle.getD ""
  else if strTruthy (payloadTitleText pd) then (payloadTitleText pd).getD ""
  else "Untitled Chart"

/-- Request body of POST /api/charts, each field possibly absent. -/
structure CreateBody where
  plotlyData : Option PlotlyData
  chartTitle : Option String
  description : Option String
  tags : Option (List String)
deriving DecidableEq, Repr

/-- Embedding of the POST /api/charts handler (chartModel.js lines
398-412): derive the title, default description to the empty string
and tags to the empty list, and stamp both timestamps with the
creation time. -/
def createChart (body : CreateBody) (now : Nat) : Chart :=
  { plotlyData := body.plotlyData
    chartTitle := deriveChartTitle body.chartTitle body.plotlyData
    description := body.description.getD ""
    tags := body.tags.getD []
    createdAt := now
    updatedAt := now }

/-- Request body of PUT /api/charts/:id, each field possibly absent. -/
structure UpdateBody where
  plotlyData : Option PlotlyData
  chartTitle : Option String
  description : Option String
  tags : Option (List String)
deriving DecidableEq, Repr

/-- Embedding of the PUT /api/charts/:id handler (chartModel.js lines
438-457): a truthy plotlyData, a truthy chartTitle, a non-undefined
description and a truthy tags array enter the update object, updatedAt
is always refreshed, and findByIdAndUpdate overwrites exactly the
collected fields. -/
def applyUpdate (body : UpdateBody) (old : Chart) (now : Nat) : Chart :=
  { plotlyData := if body.plotlyData.isSome then body.plotlyData
      else old.plotlyData
    chartTitle := if strTruthy body.chartTitle then body.chartTitle.getD ""
      else old.chartTitle
    description := match body.description with
      | some d => d
      | none => old.description
    tags := match body.tags with
      | some ts => ts
      | none => old.tags
    createdAt := old.createdAt
    updatedAt := now }

/-- Pagination envelope of the GET /api/charts listing (chartModel.js
lines 344-351). -/
structure Pagination where
  currentPage : Nat
  totalPages : Nat
  totalCharts : Nat
  chartsPerPage : Nat
  hasNextPage : Bool
  hasPrevPage : Bool
deriving DecidableEq, Repr

/-- Embedding of the GET /api/charts listing (chartModel.js lines
314-358) over the filtered and sorted chart list: skip and limit
select the page, totalPages is the ceiling of total over limit
(Math.ceil, transcribed for naturals as adding limit - 1 before
dividing), and hasNextPage compares skip plus the returned count with
the total. -/
def listCharts (charts : List Chart) (page limit : Nat) :
    List Chart × Pagination :=
  let skip := (page - 1) * limit
  let items := (charts.drop skip).take limit
  let total := charts.length
  (items,
   { currentPage := page
     totalPages := (total + limit - 1) / limit
     totalCharts := total
     chartsPerPage := limit
     hasNextPage := decide (skip + items.length < total)
     hasPrevPage := decide (1 < page) })

/-- Embedding of the duplicate construction in POST
/api/charts/:id/duplicate (chartModel.js lines 572-577): copy payload,
description and tags, append the Copy suffix to the title. -/
def duplicateChart (orig : Chart) (now : Nat) : Chart :=
  { plotlyData := orig.plotlyData
    chartTitle := orig.chartTitle ++ " (Copy)"
    description := orig.description
    tags := orig.tags
    createdAt := now
    updatedAt := now }

/-- Response status of the duplicate handler together with the chart
collection after the operation. -/
structure DuplicateOutcome where
  status : Nat
  store : List Chart
deriving DecidableEq, Repr

/-- Embedding of the POST /api/charts/:id/duplicate handler
(chartModel.js lines 561-597) over a store modelled as a
position-indexed list: a missing id yields 404 and leaves the store
unchanged, otherwise the duplicate is saved as a new document and the
response is 201. -/
def duplicateHandler (store : List Chart) (i : Nat) (now : Nat) :
    DuplicateOutcome :=
  match store.get? i with
  | none => { status := 404, store := store }
  | some orig => { status := 201, store := store ++ [duplicateChart orig now] }

/-- A concrete chart used to instantiate witnesses. -/
def sampleChart : Chart :=
  { plotlyData := none
    chartTitle := "c"
    description := "d"
    tags := ["t"]
    createdAt := 0
    updatedAt := 0 }

/-- A payload whose nested layout title text is the given string, used
in witnesses and counterexamples. -/
def pdWithTitle (s : String) : PlotlyData :=
  { data := some ["trace"]
    layout := some { title := some { text := some s } } }

/-- Length of the hex encoding: two characters per entropy byte. -/
theorem hexEncode_length (bytes : List Nat) :
    (hexEncode bytes).length = 2 * bytes.length := by
  induction bytes with
  | nil => rfl
  | cons b rest ih =>
    simp only [hexEncode, String.length, List.map_cons, List.flatten_cons,
      List.length_append, hexByte, List.length_cons, List.length_nil] at *
    omega

/-- A token minted from at least one entropy byte is never the empty
string. -/
theorem hexEncode_ne_empty (bytes : List Nat) (hb : bytes ≠ []) :
    hexEncode bytes ≠ "" := by
  intro h
  have hlen : (hexEncode bytes).length = 0 := by rw [h]; rfl
  rw [hexEncode_length] at hlen
  have : bytes.length = 0 := by omega
  exact hb (List.length_eq_zero.mp this)

/-- C1 counterexample: a POST whose XSRF-TOKEN cookie and x-csrf-token
header are both present (isSome) and string-equal, namely both the empty
string, is nonetheless rejected with 403 CSRF_VALIDATION_FAILED, so the
claimed if-and-only-if with mere presence fails. -/
theorem validateCSRF_emptyEqual_rejected :
    validateCSRF "POST" (some "") (some "") =
      MiddlewareResult.respond 403 (some "CSRF_VALIDATION_FAILED")
    ∧ (some "" : Option String).isSome = true
    ∧ (some "" : Option String) = (some "" : Option String) :=
  ⟨rfl, rfl, rfl⟩

/-- C1 amended: for a request under /api, a safe method (GET, HEAD,
OPTIONS) always bypasses the CSRF guard; for any other method the
request reaches its handler if and only if the XSRF-TOKEN cookie and the
x-csrf-token header are both present with non-empty values and
string-equal, and otherwise the response is 403 with code
CSRF_VALIDATION_FAILED.  Hence a request that reaches its handler (a
prerequisite for any 2xx) carried a header equal to the cookie. -/
theorem validateCSRF_guard_spec (m : String) (c h : Option String) :
    (isSafeMethod m = true → validateCSRF m c h = MiddlewareResult.next)
    ∧ (isSafeMethod m = false →
        ((validateCSRF m c h = MiddlewareResult.next ↔
            strTruthy c = true ∧ strTruthy h = true ∧ c = h)
         ∧ (validateCSRF m c h ≠ MiddlewareResult.next →
              validateCSRF m c h =
                MiddlewareResult.respond 403 (some "CSRF_VALIDATION_FAILED")))) := by
  constructor
  · intro hs
    simp [validateCSRF, hs]
  · intro hs
    by_cases h1 : strTruthy c = true
    all_goals by_cases h2 : strTruthy h = true
    all_goals by_cases h3 : c = h
    all_goals simp at h1 h2 ⊢
    all_goals simp [validateCSRF, hs, h1, h2, h3]

/-- C1 witness: the amended guard specification instantiated on a POST
with matching non-empty tokens (reaches the handler) and on a GET with
no tokens (bypasses). -/
theorem validateCSRF_guard_spec_witness :
    validateCSRF "POST" (some "tok") (some "tok") = MiddlewareResult.next
    ∧ validateCSRF "GET" none none = MiddlewareResult.next :=
  ⟨((validateCSRF_guard_spec "POST" (some "tok") (some "tok")).2
      (by decide)).1.mpr ⟨by decide, by decide, rfl⟩,
   (validateCSRF_guard_spec "GET" none none).1 (by decide)⟩

/-- C8: on every mutating request whose XSRF-TOKEN cookie and
x-csrf-token header are both the empty string, the guard responds 403
CSRF_VALIDATION_FAILED even though the two values are equal; indeed with
an empty cookie token no header value at all can make the request reach
its handler. -/
theorem validateCSRF_emptyToken_never_validates (m : String)
    (hm : isSafeMethod m = false) :
    validateCSRF m (some "") (some "") =
      MiddlewareResult.respond 403 (some "CSRF_VALIDATION_FAILED")
    ∧ ∀ h, validateCSRF m (some "") h ≠ MiddlewareResult.next := by
  constructor
  · simp [validateCSRF, hm, strTruthy]
  · intro h
    simp [validateCSRF, hm, strTruthy]

/-- C8 witness: the empty-token rejection at a concrete POST request. -/
theorem validateCSRF_emptyToken_witness :
    validateCSRF "POST" (some "") (some "") =
      MiddlewareResult.respond 403 (some "CSRF_VALIDATION_FAILED")
    ∧ validateCSRF "POST" (some "") (some "anything") ≠ MiddlewareResult.next :=
  ⟨(validateCSRF_emptyToken_never_validates "POST" (by decide)).1,
   (validateCSRF_emptyToken_never_validates "POST" (by decide)).2 (some "anything")⟩

/-- C2 counterexample: a HEAD request (a safe method) with no XSRF-TOKEN
cookie receives no cookie at all, and a GET request carrying an (empty)
XSRF-TOKEN cookie has it overwritten with a fresh non-empty token, so
both halves of the claim fail as stated. -/
theorem autoGenerateCSRF_cex :
    isSafeMethod "HEAD" = true
    ∧ autoGenerateCSRF "HEAD" none (List.replicate 32 0) false = none
    ∧ (autoGenerateCSRF "GET" (some "") (List.replicate 32 0) false).map
        SetCookie.value = some (hexEncode (List.replicate 32 0))
    ∧ hexEncode (List.replicate 32 0) ≠ "" := by
  refine ⟨rfl, rfl, rfl, ?_⟩
  exact hexEncode_ne_empty _ (by decide)

/-- C2 amended: only a GET request with a falsy (absent or empty)
XSRF-TOKEN cookie triggers auto-issuance, and the response then sets a
fresh token cookie; any non-GET request never triggers issuance; and any
request already carrying a non-empty XSRF-TOKEN cookie keeps that exact
cookie value (idempotent issuance). -/
theorem autoGenerateCSRF_issuance (m : String) (cookie : Option String)
    (entropy : List Nat) (isProduction : Bool) :
    (m = "GET" → strTruthy cookie = false →
        autoGenerateCSRF m cookie entropy isProduction =
          some (mkCsrfCookie (hexEncode entropy) isProduction))
    ∧ (m ≠ "GET" → autoGenerateCSRF m cookie entropy isProduction = none)
    ∧ (strTruthy cookie = true →
        effectiveCsrfCookie cookie
          (autoGenerateCSRF m cookie entropy isProduction) = cookie) := by
  refine ⟨fun hm hc => ?_, fun hm => ?_, fun hc => ?_⟩
  · subst hm
    simp [autoGenerateCSRF, hc, generateCSRFToken]
  · have hb : (m == "GET") = false := by simp [hm]
    simp [autoGenerateCSRF, hb]
  · simp [autoGenerateCSRF, hc, effectiveCsrfCookie]

/-- C2 witness: issuance on a bare GET, no issuance on a POST, and an
existing non-empty cookie kept unchanged on a GET. -/
theorem autoGenerateCSRF_issuance_witness :
    autoGenerateCSRF "GET" none [255] false =
      some (mkCsrfCookie (hexEncode [255]) false)
    ∧ autoGenerateCSRF "POST" none [255] false = none
    ∧ effectiveCsrfCookie (some "t")
        (autoGenerateCSRF "GET" (some "t") [255] false) = some "t" :=
  ⟨(autoGenerateCSRF_issuance "GET" none [255] false).1 rfl rfl,
   (autoGenerateCSRF_issuance "POST" none [255] false).2.1 (by decide),
   (autoGenerateCSRF_issuance "GET" (some "t") [255] false).2.2 (by decide)⟩

/-- C3: on a route guarded by authenticateToken, a missing session
cookie yields 401 and the handler does not run; an invalid-signature
token yields 401 without clearing the cookie; an expired token yields
401 with the distinguishing action login_required and the authToken
cookie cleared in that same response; a valid token attaches the
decoded claims and lets the handler run. -/
theorem authenticateToken_spec (cookie : Option String)
    (verify : String → VerifyOutcome) :
    (cookie = none →
        (authenticateToken cookie verify).status = some 401
        ∧ (authenticateToken cookie verify).user = none)
    ∧ (∀ t, cookie = some t → t ≠ "" →
        ((verify t = .jsonWebTokenError →
            (authenticateToken cookie verify).status = some 401
            ∧ (authenticateToken cookie verify).clearedAuthCookie = false)
         ∧ (verify t = .tokenExpiredError →
            (authenticateToken cookie verify).status = some 401
            ∧ (authenticateToken cookie verify).clearedAuthCookie = true
            ∧ (authenticateToken cookie verify).action = some "login_required")
         ∧ (∀ c, verify t = .ok c →
            (authenticateToken cookie verify).status = none
            ∧ (authenticateToken cookie verify).user = some c))) := by
  constructor
  · intro hc
    subst hc
    simp [authenticateToken, strTruthy]
  · intro t hc ht
    subst hc
    have htr : strTruthy (some t) = true := by simp [strTruthy, ht]
    refine ⟨fun hv => ?_, fun hv => ?_, fun c hv => ?_⟩
    all_goals simp [authenticateToken, htr, hv]

/-- C3 witness: the guard evaluated with a concrete verifier on a
missing cookie, an invalid token, an expired token, and a valid one. -/
theorem authenticateToken_spec_witness :
    ((authenticateToken none demoVerify).status = some 401
      ∧ (authenticateToken none demoVerify).user = none)
    ∧ ((authenticateToken (some "bad") demoVerify).status = some 401
      ∧ (authenticateToken (some "bad") demoVerify).clearedAuthCookie = false)
    ∧ ((authenticateToken (some "expired") demoVerify).status = some 401
      ∧ (authenticateToken (some "expired") demoVerify).clearedAuthCookie = true
      ∧ (authenticateToken (some "expired") demoVerify).action =
          some "login_required")
    ∧ ((authenticateToken (some "good") demoVerify).status = none
      ∧ (authenticateToken (some "good") demoVerify).user = some demoClaims) :=
  ⟨(authenticateToken_spec none demoVerify).1 rfl,
   ((authenticateToken_spec (some "bad") demoVerify).2 "bad" rfl
      (by decide)).1 (by decide),
   ((authenticateToken_spec (some "expired") demoVerify).2 "expired" rfl
      (by decide)).2.1 (by decide),
   ((authenticateToken_spec (some "good") demoVerify).2 "good" rfl
      (by decide)).2.2 demoClaims (by decide)⟩

/-- C4 counterexample: a POST /api/auth/logout request with no CSRF
cookie and no CSRF header is answered 403 by the mounted CSRF guard and
the session cookie is not cleared, so logout does not always answer
200. -/
theorem logout_missing_csrf_cex :
    logoutPipeline none none none demoVerify =
      { status := 403, clearedAuthCookie := false }
    ∧ (403 : Nat) ≠ 200 :=
  ⟨rfl, by decide⟩

/-- C4 amended: every POST /api/auth/logout request that passes the
mounted CSRF guard is answered 200 with the session cookie cleared,
regardless of whether the session token is valid, invalid, or missing. -/
theorem logout_always_succeeds (csrfCookie csrfHeader authCookie : Option String)
    (verify : String → VerifyOutcome)
    (hcsrf : validateCSRF "POST" csrfCookie csrfHeader = MiddlewareResult.next) :
    logoutPipeline csrfCookie csrfHeader authCookie verify =
      { status := 200, clearedAuthCookie := true } := by
  simp [logoutPipeline, hcsrf]

/-- C4 witness: logout with matching CSRF tokens answers 200 and clears
the cookie both without a session token and with an invalid one. -/
theorem logout_always_succeeds_witness :
    logoutPipeline (some "tok") (some "tok") none demoVerify =
      { status := 200, clearedAuthCookie := true }
    ∧ logoutPipeline (some "tok") (some "tok") (some "bad") demoVerify =
      { status := 200, clearedAuthCookie := true } :=
  ⟨logout_always_succeeds (some "tok") (some "tok") none demoVerify (by decide),
   logout_always_succeeds (some "tok") (some "tok") (some "bad") demoVerify
     (by decide)⟩

/-- Running the strict limiter inside one window: starting from counter
c, a list of mutating requests whose times stay inside the window is
admitted positionally while the incremented counter stays at or below
the ceiling, and the counter ends at c plus the number of requests. -/
theorem runStrict_inWindow (t0 : Nat) (reqs : List (Nat × String)) (c : Nat)
    (hreq : ∀ p ∈ reqs, mutatingMethods.contains p.2 = true
      ∧ p.1 < t0 + strictWindowMs) :
    runStrict ⟨t0, c⟩ reqs =
      ((List.range reqs.length).map (fun i => decide (c + i < strictMax)),
       ⟨t0, c + reqs.length⟩) := by
  induction reqs generalizing c with
  | nil => simp [runStrict]
  | cons p rest ih =>
    obtain ⟨t, m⟩ := p
    have hm : mutatingMethods.contains m = true := (hreq (t, m) (by simp)).1
    have ht : t < t0 + strictWindowMs := (hreq (t, m) (by simp)).2
    have hrest : ∀ q ∈ rest, mutatingMethods.contains q.2 = true
        ∧ q.1 < t0 + strictWindowMs := fun q hq => hreq q (by simp [hq])
    have hnr : ¬ (t0 + strictWindowMs ≤ t) := by omega
    have hm2 : m ∈ mutatingMethods := by simpa using hm
    have hstep : strictLimiter t m ⟨t0, c⟩ =
        ((if c + 1 > strictMax then
            some { status := 429
                   error := "Write operation rate limit exceeded"
                   retryAfter := "15 minutes" }
          else none),
         ⟨t0, c + 1⟩) := by
      by_cases hc : c + 1 > strictMax
      · simp [strictLimiter, hm2, hnr, hc]
      · simp [strictLimiter, hm2, hnr, hc]
    have hhead : ((if c + 1 > strictMax then
          some { status := 429
                 error := "Write operation rate limit exceeded"
                 retryAfter := "15 minutes" }
        else (none : Option LimiterReject))).isNone = decide (c + 0 < strictMax) := by
      by_cases hc : c + 1 > strictMax
      · rw [if_pos hc, Option.isNone_some]
        symm
        rw [decide_eq_false_iff_not]
        simp only [strictMax] at hc ⊢
        omega
      · rw [if_neg hc, Option.isNone_none]
        symm
        rw [decide_eq_true_eq]
        simp only [strictMax] at hc ⊢
        omega
    have htail : (fun i => decide (c + 1 + i < strictMax)) =
        (fun i => decide (c + (i + 1) < strictMax)) := by
      funext i
      exact decide_eq_decide.mpr (by omega)
    simp only [runStrict, hstep, ih (c + 1) hrest, List.length_cons,
      List.range_succ_eq_map, List.map_cons, List.map_map]
    refine congrArg₂ Prod.mk ?_ ?_
    · rw [hhead, htail]
      rfl
    · simp only [LimiterState.mk.injEq, true_and]
      omega

/-- C5: for one client key within one fixed 15-minute window, starting
from a fresh counter, the i-th mutating request (0-indexed) passes to
its handler exactly when i is below the ceiling of 20, so the first 20
pass and the 21st and all later ones are rejected; a non-mutating
request is never counted and always passes; the first mutating request
of a fresh (elapsed) window passes; and an over-ceiling in-window
mutating request is answered 429 with the retry-after hint. -/
theorem strictLimiter_spec (t0 : Nat) (reqs : List (Nat × String))
    (hreq : ∀ p ∈ reqs, mutatingMethods.contains p.2 = true
      ∧ p.1 < t0 + strictWindowMs) :
    (∀ i, i < reqs.length →
        ((runStrict ⟨t0, 0⟩ reqs).1).get? i = some (decide (i < strictMax)))
    ∧ (∀ now m s, mutatingMethods.contains m = false →
        strictLimiter now m s = (none, s))
    ∧ (∀ later m s, mutatingMethods.contains m = true →
        s.windowStart + strictWindowMs ≤ later →
        (strictLimiter later m s).1 = none)
    ∧ (∀ now m s, mutatingMethods.contains m = true →
        now < s.windowStart + strictWindowMs → strictMax ≤ s.count →
        (strictLimiter now m s).1 =
          some { status := 429
                 error := "Write operation rate limit exceeded"
                 retryAfter := "15 minutes" }) := by
  refine ⟨?_, ?_, ?_, ?_⟩
  · intro i hi
    rw [runStrict_inWindow t0 reqs 0 hreq]
    rw [List.get?_eq_getElem?, List.getElem?_map, List.getElem?_range hi]
    simp
  · intro now m s hm
    have hm2 : ¬ m ∈ mutatingMethods := by simpa using hm
    simp [strictLimiter, hm2]
  · intro later m s hm hlater
    have hm2 : m ∈ mutatingMethods := by simpa using hm
    simp [strictLimiter, hm2, hlater, strictMax]
  · intro now m s hm hwin hcount
    have hm2 : m ∈ mutatingMethods := by simpa using hm
    have hnr : ¬ (s.windowStart + strictWindowMs ≤ now) := by omega
    have hgt : s.count + 1 > strictMax := by omega
    simp [strictLimiter, hm2, hnr, hgt]

/-- C5 witness: twenty-one same-window POST requests from one client,
of which the 1st passes and the 21st is rejected; a GET is skipped; the
first request of a fresh window passes; an over-ceiling request gets
the 429 hint. -/
theorem strictLimiter_spec_witness :
    ((runStrict ⟨0, 0⟩ (List.replicate 21 (0, "POST"))).1).get? 0 = some true
    ∧ ((runStrict ⟨0, 0⟩ (List.replicate 21 (0, "POST"))).1).get? 20 = some false
    ∧ strictLimiter 5 "GET" ⟨0, 20⟩ = (none, ⟨0, 20⟩)
    ∧ (strictLimiter (strictWindowMs) "POST" ⟨0, 20⟩).1 = none
    ∧ (strictLimiter 5 "POST" ⟨0, 20⟩).1 =
        some { status := 429
               error := "Write operation rate limit exceeded"
               retryAfter := "15 minutes" } :=
  have hs := strictLimiter_spec 0 (List.replicate 21 (0, "POST"))
    (by decide)
  ⟨by simpa using hs.1 0 (by decide),
   by simpa using hs.1 20 (by decide),
   hs.2.1 5 "GET" ⟨0, 20⟩ (by decide),
   hs.2.2.1 strictWindowMs "POST" ⟨0, 20⟩ (by decide) (by decide),
   hs.2.2.2 5 "POST" ⟨0, 20⟩ (by decide) (by decide) (by decide)⟩

/-- The natural-number transcription of Math.ceil(total / limit) used
by the listing handler agrees with the rational ceiling whenever the
per-page limit is positive. -/
theorem codeTotalPages_eq_ceil (total limit : Nat) (hl : 0 < limit) :
    (total + limit - 1) / limit = ⌈(total : ℚ) / (limit : ℚ)⌉₊ := by
  have hq : (0:ℚ) < (limit:ℚ) := by exact_mod_cast hl
  have h1 : total + limit - 1 ≤
      limit * ((total + limit - 1) / limit) + (limit - 1) :=
    (Nat.div_le_iff_le_mul_add_pred hl).1 le_rfl
  have hTD : total ≤ limit * ((total + limit - 1) / limit) := by omega
  refine le_antisymm ?_ ?_
  · rcases Nat.eq_zero_or_pos total with h0 | hpos
    · subst h0
      have hz : (0 + limit - 1) / limit = 0 := Nat.div_eq_of_lt (by omega)
      rw [Nat.zero_add] at hz
      rw [Nat.zero_add, hz]
      simp
    · have hD1 : 1 ≤ (total + limit - 1) / limit := by
        rw [Nat.one_le_div_iff hl]
        omega
      have h3 : ¬ (total + limit - 1 ≤
          limit * ((total + limit - 1) / limit - 1) + (limit - 1)) := by
        intro hc
        have := (Nat.div_le_iff_le_mul_add_pred hl).2 hc
        omega
      have h4 : limit * ((total + limit - 1) / limit - 1) < total := by omega
      have h5 : (((total + limit - 1) / limit - 1 : ℕ) : ℚ) <
          (total : ℚ) / (limit : ℚ) := by
        rw [lt_div_iff₀ hq]
        have h4m : ((total + limit - 1) / limit - 1) * limit < total := by
          rw [Nat.mul_comm]; exact h4
        exact_mod_cast h4m
      have h6 := Nat.lt_ceil.2 h5
      omega
  · apply Nat.ceil_le.2
    rw [div_le_iff₀ hq]
    have hTDm : total ≤ ((total + limit - 1) / limit) * limit := by
      rw [Nat.mul_comm]; exact hTD
    exact_mod_cast hTDm

/-- C6: for a listing over T stored charts with per-page limit L
positive, the reported totalPages is the ceiling of T over L, and
hasNextPage on page p holds exactly when the skip count (p-1)*L plus
the number of charts returned on that page is below T. -/
theorem pagination_spec (charts : List Chart) (page limit : Nat)
    (hl : 0 < limit) :
    (listCharts charts page limit).2.totalPages =
      ⌈(charts.length : ℚ) / (limit : ℚ)⌉₊
    ∧ ((listCharts charts page limit).2.hasNextPage = true ↔
        (page - 1) * limit + (listCharts charts page limit).1.length <
          charts.length) := by
  constructor
  · exact codeTotalPages_eq_ceil charts.length limit hl
  · simp [listCharts]

/-- C6 witness: with limit 10 and 25 stored charts, totalPages is 3,
hasNextPage is true on page 1 and false on page 3, and the page-3
hasNextPage value matches the skip-plus-returned comparison from the
specification theorem. -/
theorem pagination_spec_witness :
    (listCharts (List.replicate 25 sampleChart) 1 10).2.totalPages = 3
    ∧ (listCharts (List.replicate 25 sampleChart) 1 10).2.hasNextPage = true
    ∧ (listCharts (List.replicate 25 sampleChart) 3 10).2.hasNextPage = false
    ∧ ((listCharts (List.replicate 25 sampleChart) 3 10).2.hasNextPage = true ↔
        (3 - 1) * 10 + (listCharts (List.replicate 25 sampleChart) 3 10).1.length <
          (List.replicate 25 sampleChart).length) :=
  ⟨by decide, by decide, by decide,
   (pagination_spec (List.replicate 25 sampleChart) 3 10 (by decide)).2⟩

/-- C7 counterexample: supplying the explicit empty-string title does
not make it the stored title (the payload title wins instead), and a
payload title that is present but empty does not become the stored
title (the default wins), so the claimed derivation fails as stated on
both clauses. -/
theorem chartTitle_derivation_cex :
    deriveChartTitle (some "") (some (pdWithTitle "X")) = "X"
    ∧ ("X" : String) ≠ ""
    ∧ payloadTitleText (some (pdWithTitle "")) = some ""
    ∧ deriveChartTitle none (some (pdWithTitle "")) = "Untitled Chart"
    ∧ ("Untitled Chart" : String) ≠ "" := by
  refine ⟨rfl, by decide, rfl, rfl, by decide⟩

/-- C7 amended: at creation time, a supplied non-empty chartTitle
becomes the stored title; otherwise a present non-empty nested
layout.title.text becomes the stored title; otherwise the stored title
is Untitled Chart.  The derivation happens at creation only: the
update handler computes the stored title from the update body title
and the previous title alone, never from the payload. -/
theorem chartTitle_derivation (body : CreateBody) (now : Nat)
    (ub : UpdateBody) (old : Chart) (later : Nat) :
    (∀ t, body.chartTitle = some t → t ≠ "" →
        (createChart body now).chartTitle = t)
    ∧ (strTruthy body.chartTitle = false →
        ∀ s, payloadTitleText body.plotlyData = some s → s ≠ "" →
          (createChart body now).chartTitle = s)
    ∧ (strTruthy body.chartTitle = false →
        strTruthy (payloadTitleText body.plotlyData) = false →
        (createChart body now).chartTitle = "Untitled Chart")
    ∧ ((applyUpdate ub old later).chartTitle =
        if strTruthy ub.chartTitle then ub.chartTitle.getD ""
        else old.chartTitle) := by
  refine ⟨fun t ht hne => ?_, fun hb s hs hne => ?_, fun hb hp => ?_, rfl⟩
  · simp [createChart, deriveChartTitle, ht, strTruthy, hne]
  · have hpt : strTruthy (payloadTitleText body.plotlyData) = true := by
      simp [hs, strTruthy, hne]
    show deriveChartTitle body.chartTitle body.plotlyData = s
    rw [deriveChartTitle, if_neg (by simp [hb]), if_pos hpt, hs]
    rfl
  · simp [createChart, deriveChartTitle, hb, hp]

/-- C7 witness: creation with an explicit title stores it; creation
with only a payload title stores that; creation with neither stores
Untitled Chart; and an update's stored title ignores the update
payload. -/
theorem chartTitle_derivation_witness :
    (createChart
        { plotlyData := some (pdWithTitle "T"), chartTitle := some "T0"
          description := none, tags := none } 5).chartTitle = "T0"
    ∧ (createChart
        { plotlyData := some (pdWithTitle "T"), chartTitle := none
          description := none, tags := none } 5).chartTitle = "T"
    ∧ (createChart
        { plotlyData := none, chartTitle := none
          description := none, tags := none } 5).chartTitle = "Untitled Chart"
    ∧ ((applyUpdate
          { plotlyData := some (pdWithTitle "Z"), chartTitle := none
            description := none, tags := none } sampleChart 9).chartTitle =
        if strTruthy (none : Option String) then
          (none : Option String).getD ""
        else sampleChart.chartTitle) :=
  ⟨(chartTitle_derivation
      { plotlyData := some (pdWithTitle "T"), chartTitle := some "T0"
        description := none, tags := none } 5
      { plotlyData := none, chartTitle := none
        description := none, tags := none } sampleChart 9).1 "T0" rfl
      (by decide),
   (chartTitle_derivation
      { plotlyData := some (pdWithTitle "T"), chartTitle := none
        description := none, tags := none } 5
      { plotlyData := none, chartTitle := none
        description := none, tags := none } sampleChart 9).2.1 (by decide) "T"
      rfl (by decide),
   (chartTitle_derivation
      { plotlyData := none, chartTitle := none
        description := none, tags := none } 5
      { plotlyData := none, chartTitle := none
        description := none, tags := none } sampleChart 9).2.2.1 (by decide)
      (by decide),
   (chartTitle_derivation
      { plotlyData := none, chartTitle := none
        description := none, tags := none } 5
      { plotlyData := some (pdWithTitle "Z"), chartTitle := none
        description := none, tags := none } sampleChart 9).2.2.2⟩

/-- C9: on an update of an existing chart, every field omitted from
the body keeps its previous value while updatedAt is always refreshed
and createdAt never changes; an empty-string chartTitle is ignored so
the stored title is never cleared by an update; an empty-string
description clears the stored description. -/
theorem put_update_frame (body : UpdateBody) (old : Chart) (now : Nat) :
    (body.plotlyData = none →
        (applyUpdate body old now).plotlyData = old.plotlyData)
    ∧ (body.chartTitle = none →
        (applyUpdate body old now).chartTitle = old.chartTitle)
    ∧ (body.description = none →
        (applyUpdate body old now).description = old.description)
    ∧ (body.tags = none → (applyUpdate body old now).tags = old.tags)
    ∧ (applyUpdate body old now).createdAt = old.createdAt
    ∧ (applyUpdate body old now).updatedAt = now
    ∧ (body.chartTitle = some "" →
        (applyUpdate body old now).chartTitle = old.chartTitle)
    ∧ (old.chartTitle ≠ "" → (applyUpdate body old now).chartTitle ≠ "")
    ∧ (body.description = some "" →
        (applyUpdate body old now).description = "") := by
  refine ⟨fun h => ?_, fun h => ?_, fun h => ?_, fun h => ?_, rfl, rfl,
    fun h => ?_, fun h => ?_, fun h => ?_⟩
  · simp [applyUpdate, h]
  · simp [applyUpdate, h, strTruthy]
  · simp [applyUpdate, h]
  · simp [applyUpdate, h]
  · simp [applyUpdate, h, strTruthy]
  · rcases hbt : body.chartTitle with _ | t
    · simpa [applyUpdate, hbt, strTruthy] using h
    · by_cases ht : t = ""
      · simpa [applyUpdate, hbt, strTruthy, ht] using h
      · simp [applyUpdate, hbt, strTruthy, ht]
  · simp [applyUpdate, h]

/-- C9 witness: an update body carrying an empty chartTitle, an empty
description, and no payload or tags leaves title, payload and tags
unchanged, clears the description, and refreshes updatedAt. -/
theorem put_update_frame_witness :
    (applyUpdate
        { plotlyData := none, chartTitle := some ""
          description := some "", tags := none } sampleChart 7).chartTitle =
      sampleChart.chartTitle
    ∧ (applyUpdate
        { plotlyData := none, chartTitle := some ""
          description := some "", tags := none } sampleChart 7).description = ""
    ∧ (applyUpdate
        { plotlyData := none, chartTitle := some ""
          description := some "", tags := none } sampleChart 7).plotlyData =
      sampleChart.plotlyData
    ∧ (applyUpdate
        { plotlyData := none, chartTitle := some ""
          description := some "", tags := none } sampleChart 7).tags =
      sampleChart.tags
    ∧ (applyUpdate
        { plotlyData := none, chartTitle := some ""
          description := some "", tags := none } sampleChart 7).updatedAt = 7
    ∧ (applyUpdate
        { plotlyData := none, chartTitle := some ""
          description := some "", tags := none } sampleChart 7).chartTitle ≠ "" :=
  have h := put_update_frame
    { plotlyData := none, chartTitle := some ""
      description := some "", tags := none } sampleChart 7
  ⟨h.2.2.2.2.2.2.1 rfl, h.2.2.2.2.2.2.2.2 rfl, h.1 rfl, h.2.2.2.1 rfl,
   h.2.2.2.2.2.1, h.2.2.2.2.2.2.2.1 (by decide)⟩

/-- C10: duplicating an existing chart answers 201, appends a new
document whose title is the original title followed by the Copy suffix
and whose payload, description and tags equal those of the original,
and leaves every pre-existing document, the original included,
unchanged. -/
theorem duplicate_spec (store : List Chart) (i now : Nat) (orig : Chart)
    (h : store.get? i = some orig) :
    (duplicateHandler store i now).status = 201
    ∧ (duplicateHandler store i now).store.get? store.length =
        some (duplicateChart orig now)
    ∧ (duplicateChart orig now).chartTitle = orig.chartTitle ++ " (Copy)"
    ∧ (duplicateChart orig now).plotlyData = orig.plotlyData
    ∧ (duplicateChart orig now).description = orig.description
    ∧ (duplicateChart orig now).tags = orig.tags
    ∧ ∀ j, j < store.length →
        (duplicateHandler store i now).store.get? j = store.get? j := by
  have h2 : store[i]? = some orig := by
    rw [← List.get?_eq_getElem?]; exact h
  refine ⟨?_, ?_, rfl, rfl, rfl, rfl, ?_⟩
  · simp [duplicateHandler, h2]
  · simp only [duplicateHandler, List.get?_eq_getElem?, h2]
    rw [List.getElem?_concat_length]
  · intro j hj
    simp only [duplicateHandler, List.get?_eq_getElem?, h2]
    rw [List.getElem?_append_left hj]

/-- C10 witness: duplicating the single chart of a one-element store
answers 201, appends the Copy document, and keeps the original. -/
theorem duplicate_spec_witness :
    (duplicateHandler [sampleChart] 0 3).status = 201
    ∧ (duplicateHandler [sampleChart] 0 3).store.get? 1 =
        some (duplicateChart sampleChart 3)
    ∧ (duplicateHandler [sampleChart] 0 3).store.get? 0 = some sampleChart :=
  have h := duplicate_spec [sampleChart] 0 3 sampleChart rfl
  ⟨h.1, by simpa using h.2.1, by simpa using h.2.2.2.2.2.2 0 (by decide)⟩

end JsonExpressApi
